import Mathlib

/-!
Shallow embedding of `src/main.py` of the db-backup-utility repository.

The script connects to a MySQL database, enumerates tables, serializes
each table's rows into INSERT statements, writes one text file per table
into a timestamped backup directory `bkp/<timestamp>/`, and finally
gzip-tars that directory.

Modelling conventions:
- Python scalar values after `str(value)` are modelled as `String`;
  a nullable row value is `Option String` (`none` = SQL NULL / Python None).
- File-system paths are lists of path components relative to the current
  working directory (`os.getcwd()`), e.g. `["bkp", ts, "db_t.txt"]`.
- Exceptions propagate: a loop body that raises aborts the loop; an
  uncaught exception makes the Python process exit with status 1.
-/

namespace DBBackup

/-- `str(value).replace('\'', '\\\'')` with the single-character pattern `'`:
each single-quote character of the string is replaced by the two-character
sequence backslash, quote (main.py line 97). -/
def replaceQuote (s : String) : String :=
  ⟨s.data.flatMap fun c => if c = '\'' then ['\\', '\''] else [c]⟩

/-- One value of a row rendered for the VALUES clause (main.py line 97):
`None` renders as the bare token `NULL`; any other value is wrapped in
single quotes after quote-escaping. -/
def renderValue (v : Option String) : String :=
  match v with
  | none => "NULL"
  | some s => "'" ++ replaceQuote s ++ "'"

/-- The `values` string of one row: the rendered values joined by `", "`
(main.py line 97, the `', '.join(...)`). -/
def valuesClause (row : List (Option String)) : String :=
  String.intercalate ", " (row.map renderValue)

/-- The INSERT statement generated for one row (main.py line 98). -/
def insertStatementFor (table : String) (columns : List String)
    (row : List (Option String)) : String :=
  "INSERT INTO " ++ table ++ " (" ++ String.intercalate ", " columns ++
    ") VALUES (" ++ valuesClause row ++ ");"

/-- The loop of main.py lines 95-98: starts from the empty list and appends
one statement per row, in row order. -/
def insertStatements (table : String) (columns : List String)
    (rows : List (List (Option String))) : List String :=
  rows.foldl (fun acc row => acc ++ [insertStatementFor table columns row]) []

/-- The filename computed by `write_to_file` (main.py line 112):
`f"{db_name}_{table_name}.txt"`. -/
def fileName (db table : String) : String :=
  db ++ "_" ++ table ++ ".txt"

/-- The session directory `CURRENT_BKP_FOLDER` relative to the working
directory: `os.path.join(BKP_PATH, datetime_string)` with
`BKP_PATH = os.path.join(os.getcwd(), "bkp")` (main.py lines 8-9, 37). -/
def sessionDir (ts : String) : List String :=
  ["bkp", ts]

/-- Absolute session directory: under `<cwd>/bkp` (main.py lines 8-9, 37). -/
def sessionDirAbs (cwd : List String) (ts : String) : List String :=
  cwd ++ sessionDir ts

/-- Path of the per-table backup file (main.py line 113):
`os.path.join(CURRENT_BKP_FOLDER, filename)`. -/
def tableFilePath (db ts table : String) : List String :=
  ["bkp", ts, fileName db table]

/-- The text written by `write_to_file` (main.py lines 117-120): the
creation-statement text, a blank line, the insert statements joined by
newlines, and the file's terminating newline. -/
def fileContent (create : String) (inserts : List String) : String :=
  create ++ "\n\n" ++ String.intercalate "\n" inserts ++ "\n"

/-- `write_to_file(table_name, create_query, insert_queries)` (main.py
lines 111-123): `create_query` is the `fetchall()` result of
`SHOW CREATE TABLE` (rows of table-name/statement pairs) and the content
uses `create_query[0][1]`; the file is created inside the session
directory.  Python indexing `[0]` would raise on an empty result; `headD`
makes the model total, callers always pass the one-row result. -/
def write_to_file (db ts table : String) (create_query : List (String × String))
    (insert_queries : List String) : List String × String :=
  (tableFilePath db ts table,
   fileContent (create_query.headD ("", "")).2 insert_queries)

/-- The two cursor queries issued per table inside the loop of
`fetch_tables` that can raise (main.py lines 87 and 103). -/
inductive Stage
  | dataFetch
  | schemaFetch
  deriving DecidableEq, Repr

/-- What the database returns for one table of the `SHOW TABLES;` result:
either `SELECT * FROM <t>;` raises (`dataError`), or it succeeds and
`SHOW CREATE TABLE <t>` raises (`schemaError`), or both succeed (`ok`,
carrying the column names of `cursor.description`, the fetched rows in
fetch order, and the creation-statement text of `SHOW CREATE TABLE`). -/
inductive FetchOutcome
  | dataError
  | schemaError (columns : List String) (rows : List (List (Option String)))
  | ok (columns : List String) (rows : List (List (Option String)))
      (createStmt : String)
  deriving DecidableEq, Repr

/-- The stage at which processing a table raises, if any. -/
def FetchOutcome.failStage : FetchOutcome → Option Stage
  | .dataError => some .dataFetch
  | .schemaError _ _ => some .schemaFetch
  | .ok _ _ _ => none

/-- One table name of the `SHOW TABLES;` result paired with how the
database behaves when that table is queried. -/
structure TableSpec where
  name : String
  outcome : FetchOutcome
  deriving DecidableEq, Repr

/-- The loop of `fetch_tables` (main.py lines 81-108).  Each table is
processed in enumeration order: `SELECT *`, build the insert statements,
`SHOW CREATE TABLE`, `write_to_file`.  There is no `try`/`except`, so the
first raising query aborts the loop: the result is the files written so
far paired with `some (tableName, stage)` for the uncaught exception, or
`none` when every table succeeded. -/
def fetchTables (db ts : String) :
    List TableSpec → List (List String × String) × Option (String × Stage)
  | [] => ([], none)
  | t :: rest =>
    match t.outcome with
    | .dataError => ([], some (t.name, .dataFetch))
    | .schemaError _ _ => ([], some (t.name, .schemaFetch))
    | .ok cols rows create =>
      let file := write_to_file db ts t.name [(t.name, create)]
        (insertStatements t.name cols rows)
      let tail := fetchTables db ts rest
      (file :: tail.1, tail.2)

/-! ### Timestamps

`ts = time.time(); datetime_string =
datetime.datetime.fromtimestamp(ts).strftime('%Y_%m_%d_%H_%M_%S')`
(main.py lines 35-36).  The wall-clock instant is modelled in whole
milliseconds since the epoch; `strftime` prints whole seconds, so the
fractional part is discarded.  The timezone offset is taken as zero. -/

/-- Two-digit zero padding of `%m`, `%d`, `%H`, `%M`, `%S`. -/
def pad2 (n : Nat) : String :=
  if n < 10 then "0" ++ toString n else toString n

/-- Civil date from the day count since 1970-01-01 (proleptic Gregorian
calendar, the calendar `datetime` uses): year, month, day. -/
def civilFromDays (z : Nat) : Nat × Nat × Nat :=
  let z' := z + 719468
  let era := z' / 146097
  let doe := z' % 146097
  let yoe := (doe - doe / 1460 + doe / 36524 - doe / 146096) / 365
  let y := yoe + era * 400
  let doy := doe - (365 * yoe + yoe / 4 - yoe / 100)
  let mp := (5 * doy + 2) / 153
  let d := doy - (153 * mp + 2) / 5 + 1
  let m := if mp < 10 then mp + 3 else mp - 9
  (if m ≤ 2 then y + 1 else y, m, d)

/-- `strftime('%Y_%m_%d_%H_%M_%S')` of a whole-second epoch instant. -/
def datetimeOfSeconds (sec : Nat) : String :=
  let c := civilFromDays (sec / 86400)
  let rem := sec % 86400
  toString c.1 ++ "_" ++ pad2 c.2.1 ++ "_" ++ pad2 c.2.2 ++ "_" ++
    pad2 (rem / 3600) ++ "_" ++ pad2 (rem % 3600 / 60) ++ "_" ++ pad2 (rem % 60)

/-- The session's `datetime_string` from the instant `time.time()` was
called, in milliseconds since the epoch (main.py lines 35-36). -/
def runTimestamp (ms : Nat) : String :=
  datetimeOfSeconds (ms / 1000)

/-- `os.makedirs(p)` without `exist_ok` (main.py line 38): raises
`FileExistsError` when the directory already exists, otherwise creates
it. -/
def makedirsFresh (existing : List (List String)) (p : List String) :
    Except String (List (List String)) :=
  if p ∈ existing then .error "FileExistsError" else .ok (p :: existing)

/-- The archive filename `f"{db_name}_{datetime_string}.tar"`
(main.py line 127); opened relative to the working directory. -/
def archiveName (db ts : String) : String :=
  db ++ "_" ++ ts ++ ".tar"

/-- Path of the archive file: `tarfile.open` gets the bare filename, so
the file lands in the current working directory (main.py line 128). -/
def archivePathAbs (cwd : List String) (db ts : String) : List String :=
  cwd ++ [archiveName db ts]

/-- The bytes of the gzip-compressed tar stream, abstracted: what
`make_tarfile` determines about them is the internal root entry name
(`arcname=os.path.basename(CURRENT_BKP_FOLDER)`, i.e. the timestamp) and
the member files below it (main.py line 129). -/
def gzipTarBlob (root : String) (members : List (List String × String)) : String :=
  toString (root, members)

/-- How one `make_tarfile` call terminates: success, failure to open or
create the output (no bytes written), or an I/O failure midway through
writing (a truncated archive file remains). -/
inductive TarResult
  | ok
  | openError
  | writeError (truncated : String)
  deriving DecidableEq, Repr

/-- Store `content` at `path`, overwriting an existing entry. -/
def setFile (fs : List (List String × String)) (path : List String)
    (content : String) : List (List String × String) :=
  fs.filter (fun e => e.1 ≠ path) ++ [(path, content)]

/-- The files below the session directory in a file-system state. -/
def sessionEntries (ts : String) (fs : List (List String × String)) :
    List (List String × String) :=
  fs.filter fun e => (sessionDir ts).isPrefixOf e.1

/-- `make_tarfile()` (main.py lines 126-129) acting on the file-system
state `fs` (paths relative to the working directory): on success the
gzip-compressed archive of the session directory's entries appears at the
archive path; on failure either nothing is written or a truncated archive
is left at that path.  The function only ever writes the archive path. -/
def make_tarfile (db ts : String) (fs : List (List String × String))
    (r : TarResult) : List (List String × String) :=
  match r with
  | .ok => setFile fs [archiveName db ts] (gzipTarBlob ts (sessionEntries ts fs))
  | .openError => fs
  | .writeError truncated => setFile fs [archiveName db ts] truncated

/-! ### The whole run (`__main__`, main.py lines 138-141) -/

/-- How the run's database interaction goes.  `connect_to_mysql` is
imported from `myconnection` (not part of `src/`); per the spec's
Connection Manager contract it tries up to 3 attempts and yields no
usable connection on exhaustion — `connect_to_db` tests exactly that with
`if cnx and cnx.is_connected()` (main.py line 56), so connection failure
is modelled as `failed`.  `enumError` is `SHOW TABLES;` itself raising;
`tables` is a successful enumeration. -/
inductive ConnResult
  | failed
  | enumError
  | tables (tbls : List TableSpec)
  deriving DecidableEq, Repr

/-- Observable steps of a run, in order. -/
inductive Event
  | printed (msg : String)
  | wrote (path : List String) (content : String)
  | archived (name : String) (root : String) (gzip : Bool)
  deriving DecidableEq, Repr

/-- Is the event an archiver run? -/
def Event.isArchive : Event → Bool
  | .archived _ _ _ => true
  | _ => false

/-- The event trace of `__main__` (main.py lines 138-141):
`connect_to_db()` then `make_tarfile()`.  A falsy connection prints
"Could not connect" and returns normally, so `make_tarfile()` still runs;
an exception in `SHOW TABLES;` or in the table loop propagates out of
`connect_to_db()` uncaught, so `make_tarfile()` never runs.
`make_tarfile` uses mode "w:gz", hence the `true` gzip flag. -/
def runEvents (db ts : String) (conn : ConnResult) : List Event :=
  match conn with
  | .failed => [.printed "Could not connect", .archived (archiveName db ts) ts true]
  | .enumError => []
  | .tables tbls =>
    let res := fetchTables db ts tbls
    (res.1.map fun f => Event.wrote f.1 f.2) ++
      match res.2 with
      | some _ => []
      | none => [.archived (archiveName db ts) ts true]

/-- The process exit status: 0 when the script runs to completion, 1 when
an uncaught exception (enumeration failure, or any per-table query
failure) terminates the interpreter. -/
def runExit (db ts : String) (conn : ConnResult) : Nat :=
  match conn with
  | .failed => 0
  | .enumError => 1
  | .tables tbls => match (fetchTables db ts tbls).2 with
    | some _ => 1
    | none => 0

/-! ### Command-line arguments (main.py lines 17-33, 44-49) -/

/-- The parsed argparse namespace: every flag the parser defines. -/
structure Args where
  host : String
  port : String
  username : String
  password : String
  db_name : String
  destination : String
  deriving DecidableEq, Repr

/-- The `config` dict passed to `connect_to_mysql` (main.py lines 44-49):
exactly the keys "host", "user", "password", "database". -/
def config (a : Args) : List (String × String) :=
  [("host", a.host), ("user", a.username),
   ("password", a.password), ("database", a.db_name)]

/-- Everything a run leaves behind, with absolute paths: the per-table
files (inside `<cwd>/bkp/<ts>/`), the archive (in `<cwd>`) when
`make_tarfile` ran, and the exit status. -/
structure RunOut where
  files : List (List String × String)
  archive : Option (List String × String)
  exitCode : Nat
  deriving DecidableEq, Repr

/-- The run as a function of the parsed arguments, the working directory,
the start instant (milliseconds) and the database's behaviour.  Session
directory and archive placement come from `os.getcwd()` (main.py lines
8-9, 37, 128); the database name comes from `args.db_name`. -/
def runAll (a : Args) (cwd : List String) (ms : Nat) (conn : ConnResult) :
    RunOut :=
  let ts := runTimestamp ms
  let db := a.db_name
  match conn with
  | .failed =>
    { files := [],
      archive := some (archivePathAbs cwd db ts, gzipTarBlob ts []),
      exitCode := 0 }
  | .enumError => { files := [], archive := none, exitCode := 1 }
  | .tables tbls =>
    let res := fetchTables db ts tbls
    let files := res.1.map fun f => (cwd ++ f.1, f.2)
    match res.2 with
    | some _ => { files := files, archive := none, exitCode := 1 }
    | none =>
      { files := files,
        archive := some (archivePathAbs cwd db ts,
          gzipTarBlob ts (sessionEntries ts res.1)),
        exitCode := 0 }

/-! ### Helper lemmas -/

/-- The appending loop of main.py lines 95-98 produces exactly the map of
the per-row statement over the rows, in order. -/
theorem insertStatements_eq_map (t : String) (cols : List String)
    (rows : List (List (Option String))) :
    insertStatements t cols rows = rows.map (insertStatementFor t cols) := by
  suffices h : ∀ acc : List String,
      rows.foldl (fun acc row => acc ++ [insertStatementFor t cols row]) acc =
        acc ++ rows.map (insertStatementFor t cols) by
    simpa [insertStatements] using h []
  induction rows with
  | nil => simp
  | cons r rs ih => intro acc; simp [ih]

/-- Every file produced by the `fetch_tables` loop lives directly in the
session directory. -/
theorem fetchTables_paths (db ts : String) (tbls : List TableSpec) :
    ∀ f ∈ (fetchTables db ts tbls).1, ∃ n, f.1 = ["bkp", ts, n] := by
  induction tbls with
  | nil => simp [fetchTables]
  | cons t rest ih =>
    intro f hf
    cases hout : t.outcome with
    | dataError => simp [fetchTables, hout] at hf
    | schemaError cols rows => simp [fetchTables, hout] at hf
    | ok cols rows create =>
      simp only [fetchTables, hout, List.mem_cons] at hf
      rcases hf with rfl | hf
      · exact ⟨fileName db t.name, rfl⟩
      · exact ih f hf

/-- All files written by the loop are below the session directory, so the
filter selecting the session directory's entries keeps all of them. -/
theorem sessionEntries_fetchTables (db ts : String) (tbls : List TableSpec) :
    sessionEntries ts (fetchTables db ts tbls).1 = (fetchTables db ts tbls).1 := by
  rw [sessionEntries, List.filter_eq_self]
  intro f hf
  obtain ⟨n, hn⟩ := fetchTables_paths db ts tbls f hf
  rw [hn]
  simp [sessionDir, List.isPrefixOf]

/-- Distinct timestamps give distinct archive filenames. -/
theorem archiveName_inj (db ts1 ts2 : String)
    (h : archiveName db ts1 = archiveName db ts2) : ts1 = ts2 := by
  have hd : (db ++ "_" ++ ts1).data ++ ".tar".data =
      (db ++ "_" ++ ts2).data ++ ".tar".data := by
    simpa [archiveName, String.data_append] using congrArg String.data h
  have h1 : (db ++ "_").data ++ ts1.data = (db ++ "_").data ++ ts2.data := by
    simpa [String.data_append] using List.append_cancel_right hd
  exact String.ext (List.append_cancel_left h1)

/-! ### The claims -/

/-- C1: a `None` row value is rendered as the bare unquoted token `NULL`
— never as `"None"`, `"null"` or an empty quoted string — and every
non-`None` value is rendered as single-quoted text in which each
embedded single quote is replaced by the backslash-quote sequence
(main.py line 97). -/
theorem null_values_and_quote_escaping :
    renderValue none = "NULL" ∧
    (["None", "null", "''"].contains (renderValue none)) = false ∧
    ∀ s : String, (renderValue (some s)).data =
      '\'' :: ((s.data.flatMap fun c =>
        if c = '\'' then ['\\', '\''] else [c]) ++ ['\'']) := by
  refine ⟨rfl, by decide, fun s => ?_⟩
  show ("'" ++ replaceQuote s ++ "'").data = _
  simp [String.data_append, replaceQuote]

/-- C5: the serializer emits exactly one statement per fetched row, of
the form `INSERT INTO <table> (<col1>, <col2>, ...) VALUES (<v1>, <v2>,
...);`, and the statements appear in row fetch order (main.py lines
95-98). -/
theorem one_insert_per_row (t : String) (cols : List String)
    (rows : List (List (Option String))) :
    insertStatements t cols rows =
      rows.map (fun row =>
        "INSERT INTO " ++ t ++ " (" ++ String.intercalate ", " cols ++
          ") VALUES (" ++
          String.intercalate ", " (row.map renderValue) ++ ");") ∧
    (insertStatements t cols rows).length = rows.length := by
  refine ⟨?_, ?_⟩ <;> rw [insertStatements_eq_map]
  · rfl
  · exact List.length_map rows _

/-- C4: in a run whose table loop completes, every enumerated table
yields a file named exactly `<db_name>_<table>.txt` inside the session
directory, whose content is the creation-statement text, a blank line,
and the insert statements newline-joined in order (with the file's
terminating newline; main.py lines 111-123). -/
theorem backup_writer_output (db ts : String) (tbls : List TableSpec)
    (t : TableSpec) (cols : List String) (rows : List (List (Option String)))
    (create : String) (ht : t ∈ tbls)
    (hok : t.outcome = FetchOutcome.ok cols rows create)
    (hrun : (fetchTables db ts tbls).2 = none) :
    (["bkp", ts, db ++ "_" ++ t.name ++ ".txt"],
      create ++ "\n\n" ++
        String.intercalate "\n" (insertStatements t.name cols rows) ++ "\n")
      ∈ (fetchTables db ts tbls).1 := by
  induction tbls with
  | nil => cases ht
  | cons p rest ih =>
    cases hpout : p.outcome with
    | dataError => simp [fetchTables, hpout] at hrun
    | schemaError c r => simp [fetchTables, hpout] at hrun
    | ok c r cr =>
      have hrun' : (fetchTables db ts rest).2 = none := by
        simpa [fetchTables, hpout] using hrun
      rcases List.mem_cons.mp ht with rfl | hmem
      · rw [hpout] at hok
        obtain ⟨hc, hr, hcr⟩ : c = cols ∧ r = rows ∧ cr = create := by
          injection hok with h1 h2 h3; exact ⟨h1, h2, h3⟩
        subst hc; subst hr; subst hcr
        simp [fetchTables, hpout, write_to_file, tableFilePath, fileName,
          fileContent]
      · have hcons : (fetchTables db ts (p :: rest)).1 =
            write_to_file db ts p.name [(p.name, cr)]
              (insertStatements p.name c r) :: (fetchTables db ts rest).1 := by
          simp [fetchTables, hpout]
        rw [hcons]
        exact List.mem_cons.mpr (Or.inr (ih hmem hrun'))

/-- C4 witness: a one-table database named `shop` with table `orders`
yields the file `shop_orders.txt` with the expected content. -/
theorem backup_writer_output_witness :
    (["bkp", "TS", "shop" ++ "_" ++ "orders" ++ ".txt"],
      "CREATE TABLE orders;" ++ "\n\n" ++
        String.intercalate "\n"
          (insertStatements "orders" ["id"] [[some "1", none]]) ++ "\n")
      ∈ (fetchTables "shop" "TS"
          [⟨"orders", FetchOutcome.ok ["id"] [[some "1", none]]
            "CREATE TABLE orders;"⟩]).1 :=
  backup_writer_output "shop" "TS"
    [⟨"orders", FetchOutcome.ok ["id"] [[some "1", none]] "CREATE TABLE orders;"⟩]
    ⟨"orders", FetchOutcome.ok ["id"] [[some "1", none]] "CREATE TABLE orders;"⟩
    ["id"] [[some "1", none]] "CREATE TABLE orders;"
    (List.mem_singleton.mpr rfl) rfl rfl

/-- C2 counterexample: with three tables where the second one's creation
statement fetch raises, the loop aborts with the uncaught exception:
table 1's file exists, but table 3 produces no output file and there is
no failure summary — contrary to the claim that remaining tables are
still processed. -/
theorem table_failure_aborts_cex :
    (fetchTables "db" "TS"
      [⟨"t1", FetchOutcome.ok ["id"] [[some "1"]] "CREATE t1"⟩,
       ⟨"t2", FetchOutcome.schemaError ["id"] [[some "2"]]⟩,
       ⟨"t3", FetchOutcome.ok ["id"] [[some "3"]] "CREATE t3"⟩]).2 =
        some ("t2", Stage.schemaFetch) ∧
    (fetchTables "db" "TS"
      [⟨"t1", FetchOutcome.ok ["id"] [[some "1"]] "CREATE t1"⟩,
       ⟨"t2", FetchOutcome.schemaError ["id"] [[some "2"]]⟩,
       ⟨"t3", FetchOutcome.ok ["id"] [[some "3"]] "CREATE t3"⟩]).1.map Prod.fst =
        [["bkp", "TS", "db_t1.txt"]] ∧
    ["bkp", "TS", "db_t3.txt"] ∉
      (fetchTables "db" "TS"
        [⟨"t1", FetchOutcome.ok ["id"] [[some "1"]] "CREATE t1"⟩,
         ⟨"t2", FetchOutcome.schemaError ["id"] [[some "2"]]⟩,
         ⟨"t3", FetchOutcome.ok ["id"] [[some "3"]] "CREATE t3"⟩]).1.map Prod.fst := by
  decide

/-- C2 amended: a schema- or data-fetch failure for one table raises an
uncaught exception identifying that table and stage, aborting the whole
run: the tables before it keep their files, but the failing table and
every later table produce no file, and no failure summary is produced. -/
theorem table_failure_aborts (db ts : String) (pre : List TableSpec)
    (bad : TableSpec) (post : List TableSpec) (st : Stage)
    (hpre : ∀ t ∈ pre, ∃ cols rows create,
      t.outcome = FetchOutcome.ok cols rows create)
    (hbad : bad.outcome.failStage = some st) :
    (fetchTables db ts (pre ++ bad :: post)).2 = some (bad.name, st) ∧
    (fetchTables db ts (pre ++ bad :: post)).1.map Prod.fst =
      pre.map fun t => ["bkp", ts, fileName db t.name] := by
  induction pre with
  | nil =>
    cases hout : bad.outcome with
    | dataError =>
      rw [hout] at hbad
      simp only [FetchOutcome.failStage, Option.some_inj] at hbad
      subst hbad
      simp [fetchTables, hout]
    | schemaError c r =>
      rw [hout] at hbad
      simp only [FetchOutcome.failStage, Option.some_inj] at hbad
      subst hbad
      simp [fetchTables, hout]
    | ok c r cr =>
      rw [hout] at hbad
      simp [FetchOutcome.failStage] at hbad
  | cons p ps ih =>
    obtain ⟨cols, rows, create, hok⟩ := hpre p (List.mem_cons_self p ps)
    have ihres := ih fun t htm => hpre t (List.mem_cons_of_mem p htm)
    simp only [List.cons_append, fetchTables, hok]
    exact ⟨ihres.1, by simp [write_to_file, tableFilePath, ihres.2]⟩

/-- C2 witness: one good table before, one after, the middle table's
schema fetch failing. -/
theorem table_failure_aborts_witness :
    (fetchTables "db" "TS"
      ([⟨"t1", FetchOutcome.ok ["id"] [[some "1"]] "CREATE t1"⟩] ++
        ⟨"t2", FetchOutcome.schemaError ["id"] [[some "2"]]⟩ ::
          [⟨"t3", FetchOutcome.ok ["id"] [[some "3"]] "CREATE t3"⟩])).2 =
      some ("t2", Stage.schemaFetch) ∧
    (fetchTables "db" "TS"
      ([⟨"t1", FetchOutcome.ok ["id"] [[some "1"]] "CREATE t1"⟩] ++
        ⟨"t2", FetchOutcome.schemaError ["id"] [[some "2"]]⟩ ::
          [⟨"t3", FetchOutcome.ok ["id"] [[some "3"]] "CREATE t3"⟩])).1.map Prod.fst =
      ([⟨"t1", FetchOutcome.ok ["id"] [[some "1"]] "CREATE t1"⟩] :
          List TableSpec).map
        fun t => ["bkp", "TS", fileName "db" t.name] :=
  table_failure_aborts "db" "TS"
    [⟨"t1", FetchOutcome.ok ["id"] [[some "1"]] "CREATE t1"⟩]
    ⟨"t2", FetchOutcome.schemaError ["id"] [[some "2"]]⟩
    [⟨"t3", FetchOutcome.ok ["id"] [[some "3"]] "CREATE t3"⟩]
    Stage.schemaFetch
    (by
      intro t htm
      rw [List.mem_singleton] at htm
      subst htm
      exact ⟨["id"], [[some "1"]], "CREATE t1", rfl⟩)
    rfl

/-- C3 counterexample: when `connect_to_mysql` yields no usable
connection, `connect_to_db` only prints "Could not connect" and returns
normally, `make_tarfile()` still runs, and the process exits with status
0 — not non-zero as claimed. -/
theorem connection_failure_exit_cex :
    runExit "ecom_db" "TS" ConnResult.failed = 0 ∧
    runEvents "ecom_db" "TS" ConnResult.failed =
      [Event.printed "Could not connect",
       Event.archived "ecom_db_TS.tar" "TS" true] := by
  decide

/-- C3 amended: the exit status is 0 on full success and also on
connection failure (which is only printed); it is non-zero — an uncaught
exception — exactly when the table enumeration query fails or some
table's extraction fails. -/
theorem exit_status_characterization (db ts : String) (conn : ConnResult) :
    runExit db ts conn = 0 ↔
      conn = ConnResult.failed ∨
      ∃ tbls, conn = ConnResult.tables tbls ∧
        (fetchTables db ts tbls).2 = none := by
  cases conn with
  | failed => simp [runExit]
  | enumError => simp [runExit]
  | tables tbls =>
    cases h : (fetchTables db ts tbls).2 with
    | none => simp [runExit, h]
    | some e => simp [runExit, h]

/-- C6: in a run whose table loop completes, the archiver runs exactly
once, after every file write; it produces the single gzip-compressed
archive `<db_name>_<timestamp>.tar` whose internal root entry is the
session directory's base name (the timestamp) and which contains the
entire session directory tree (main.py lines 126-129, 138-141). -/
theorem archiver_once_after_all_tables (db ts : String)
    (tbls : List TableSpec) (h : (fetchTables db ts tbls).2 = none) :
    runEvents db ts (ConnResult.tables tbls) =
      ((fetchTables db ts tbls).1.map fun f => Event.wrote f.1 f.2) ++
        [Event.archived (db ++ "_" ++ ts ++ ".tar") ts true] ∧
    (runEvents db ts (ConnResult.tables tbls)).countP Event.isArchive = 1 ∧
    make_tarfile db ts (fetchTables db ts tbls).1 TarResult.ok =
      (fetchTables db ts tbls).1 ++
        [([db ++ "_" ++ ts ++ ".tar"],
          gzipTarBlob ts (fetchTables db ts tbls).1)] := by
  have h1 : runEvents db ts (ConnResult.tables tbls) =
      ((fetchTables db ts tbls).1.map fun f => Event.wrote f.1 f.2) ++
        [Event.archived (db ++ "_" ++ ts ++ ".tar") ts true] := by
    simp [runEvents, h, archiveName]
  refine ⟨h1, ?_, ?_⟩
  · rw [h1, List.countP_append, List.countP_map]
    simp [Function.comp, Event.isArchive, List.countP_cons]
  · rw [make_tarfile, sessionEntries_fetchTables, setFile, archiveName,
      List.filter_eq_self.mpr]
    intro f hf
    obtain ⟨n, hn⟩ := fetchTables_paths db ts tbls f hf
    simp [hn]

/-- C6 witness: a run over one successfully fetched table. -/
theorem archiver_once_after_all_tables_witness :
    runEvents "db" "TS" (ConnResult.tables
        [⟨"t1", FetchOutcome.ok ["id"] [[some "1"]] "CREATE t1"⟩]) =
      ((fetchTables "db" "TS"
        [⟨"t1", FetchOutcome.ok ["id"] [[some "1"]] "CREATE t1"⟩]).1.map
          fun f => Event.wrote f.1 f.2) ++
        [Event.archived ("db" ++ "_" ++ "TS" ++ ".tar") "TS" true] ∧
    (runEvents "db" "TS" (ConnResult.tables
        [⟨"t1", FetchOutcome.ok ["id"] [[some "1"]] "CREATE t1"⟩])).countP
      Event.isArchive = 1 ∧
    make_tarfile "db" "TS" (fetchTables "db" "TS"
        [⟨"t1", FetchOutcome.ok ["id"] [[some "1"]] "CREATE t1"⟩]).1
      TarResult.ok =
      (fetchTables "db" "TS"
        [⟨"t1", FetchOutcome.ok ["id"] [[some "1"]] "CREATE t1"⟩]).1 ++
        [(["db" ++ "_" ++ "TS" ++ ".tar"],
          gzipTarBlob "TS" (fetchTables "db" "TS"
            [⟨"t1", FetchOutcome.ok ["id"] [[some "1"]] "CREATE t1"⟩]).1)] :=
  archiver_once_after_all_tables "db" "TS"
    [⟨"t1", FetchOutcome.ok ["id"] [[some "1"]] "CREATE t1"⟩] rfl

/-- C7 counterexample: two runs started at distinct instants (0 ms and
500 ms after the epoch) fall into the same wall-clock second, so their
`datetime_string`s coincide: the session directories are not distinct
and neither are the archive filenames (the second run's `os.makedirs`
then raises `FileExistsError`). -/
theorem same_second_runs_collide :
    runTimestamp 0 = runTimestamp 500 ∧
    runTimestamp 0 = "1970_01_01_00_00_00" ∧
    sessionDir (runTimestamp 0) = sessionDir (runTimestamp 500) ∧
    archiveName "ecom_db" (runTimestamp 0) =
      archiveName "ecom_db" (runTimestamp 500) ∧
    makedirsFresh [sessionDir (runTimestamp 0)] (sessionDir (runTimestamp 500)) =
      Except.error "FileExistsError" :=
  ⟨by decide, by decide, by decide, by decide, by
    rw [makedirsFresh, if_pos (List.mem_singleton.mpr (by decide))]⟩

/-- C7 amended: two runs whose formatted timestamps (second granularity)
differ have distinct session directories, distinct archive filenames,
and no per-table file path of one run collides with one of the other;
when the timestamps coincide, the second run's `os.makedirs` raises
`FileExistsError` before any file of that run is written. -/
theorem session_isolation (db ts1 ts2 : String) :
    (ts1 ≠ ts2 →
      sessionDir ts1 ≠ sessionDir ts2 ∧
      archiveName db ts1 ≠ archiveName db ts2 ∧
      ∀ t1 t2 : String, tableFilePath db ts1 t1 ≠ tableFilePath db ts2 t2) ∧
    ∀ existing, sessionDir ts2 ∈ existing →
      makedirsFresh existing (sessionDir ts2) =
        Except.error "FileExistsError" := by
  constructor
  · intro hne
    refine ⟨?_, ?_, ?_⟩
    · intro hcontra
      apply hne
      simpa [sessionDir] using hcontra
    · intro hcontra
      exact hne (archiveName_inj db ts1 ts2 hcontra)
    · intro t1 t2 hcontra
      apply hne
      simp only [tableFilePath, List.cons.injEq] at hcontra
      exact hcontra.2.1
  · intro existing hmem
    simp [makedirsFresh, hmem]

/-- C7 witness: two concrete distinct timestamps, and a session
directory that already exists. -/
theorem session_isolation_witness :
    sessionDir "1970_01_01_00_00_00" ≠ sessionDir "1970_01_01_00_00_01" ∧
    makedirsFresh [sessionDir "1970_01_01_00_00_01"]
        (sessionDir "1970_01_01_00_00_01") =
      Except.error "FileExistsError" :=
  ⟨((session_isolation "ecom_db" "1970_01_01_00_00_00"
      "1970_01_01_00_00_01").1 (by decide)).1,
   (session_isolation "ecom_db" "1970_01_01_00_00_00"
      "1970_01_01_00_00_01").2 [sessionDir "1970_01_01_00_00_01"]
     (List.mem_singleton.mpr rfl)⟩

/-- C8: when `make_tarfile` fails — whether nothing could be written or
a truncated archive was left behind — the entries below the session
directory are exactly what they were before archiving began; the
already-written per-table files are never deleted or modified
(main.py lines 126-129). -/
theorem archive_failure_preserves_files (db ts : String)
    (fs : List (List String × String)) (r : TarResult)
    (h : r ≠ TarResult.ok) :
    sessionEntries ts (make_tarfile db ts fs r) = sessionEntries ts fs := by
  cases r with
  | ok => exact absurd rfl h
  | openError => rfl
  | writeError truncated =>
    rw [make_tarfile, setFile, sessionEntries, sessionEntries,
      List.filter_append, List.filter_filter]
    have harch :
        List.filter (fun e : List String × String =>
          (sessionDir ts).isPrefixOf e.1)
          [([archiveName db ts], truncated)] = [] := by
      simp [sessionDir, List.isPrefixOf]
    rw [harch, List.append_nil]
    apply List.filter_congr
    intro e he
    by_cases hp : (sessionDir ts).isPrefixOf e.1
    · have hne : e.1 ≠ [archiveName db ts] := by
        intro hcontra
        rw [hcontra] at hp
        simp [sessionDir, List.isPrefixOf] at hp
      simp [hp, hne]
    · simp [hp]

/-- C8 witness: an open failure and a midway write failure both leave
the one session file untouched. -/
theorem archive_failure_preserves_files_witness :
    sessionEntries "TS"
        (make_tarfile "db" "TS" [(["bkp", "TS", "db_t1.txt"], "x")]
          TarResult.openError) =
      sessionEntries "TS" [(["bkp", "TS", "db_t1.txt"], "x")] :=
  archive_failure_preserves_files "db" "TS"
    [(["bkp", "TS", "db_t1.txt"], "x")] TarResult.openError (by decide)

/-- C9: the destination value (flag `-d`, `--destination`) is parsed but
never read again: two
runs that differ only in it produce identical outputs; every per-table
file lies under `<cwd>/bkp/<timestamp>/` and the archive is written to
the current working directory (main.py lines 8-12, 23, 33, 113, 128). -/
theorem destination_flag_ignored (a1 a2 : Args) (cwd : List String)
    (ms : Nat) (conn : ConnResult)
    (_hh : a1.host = a2.host) (_hp : a1.port = a2.port)
    (_hu : a1.username = a2.username) (_hw : a1.password = a2.password)
    (hdb : a1.db_name = a2.db_name) :
    runAll a1 cwd ms conn = runAll a2 cwd ms conn ∧
    (∀ f ∈ (runAll a1 cwd ms conn).files,
      sessionDirAbs cwd (runTimestamp ms) <+: f.1) ∧
    (∀ p blob, (runAll a1 cwd ms conn).archive = some (p, blob) →
      p = cwd ++ [archiveName a1.db_name (runTimestamp ms)]) := by
  refine ⟨?_, ?_, ?_⟩
  · cases conn <;> simp [runAll, hdb]
  · intro f hf
    cases conn with
    | failed => simp [runAll] at hf
    | enumError => simp [runAll] at hf
    | tables tbls =>
      have hf' : f ∈ ((fetchTables a1.db_name (runTimestamp ms) tbls).1.map
          fun g => (cwd ++ g.1, g.2)) := by
        rcases hres : (fetchTables a1.db_name (runTimestamp ms) tbls).2 with
          _ | e <;> simpa [runAll, hres] using hf
      obtain ⟨g, hg, rfl⟩ := List.mem_map.mp hf'
      obtain ⟨n, hn⟩ := fetchTables_paths a1.db_name (runTimestamp ms) tbls g hg
      rw [hn]
      exact ⟨[n], by simp [sessionDirAbs, sessionDir]⟩
  · intro p blob hsome
    cases conn with
    | failed =>
      simp only [runAll, Option.some_inj, Prod.mk.injEq] at hsome
      exact hsome.1.symm
    | enumError => simp [runAll] at hsome
    | tables tbls =>
      rcases hres : (fetchTables a1.db_name (runTimestamp ms) tbls).2 with
        _ | e
      · simp only [runAll, hres, Option.some_inj, Prod.mk.injEq] at hsome
        exact hsome.1.symm
      · simp [runAll, hres] at hsome

/-- C9 witness: two argument vectors differing only in the destination
give the same run output. -/
theorem destination_flag_ignored_witness :
    runAll ⟨"localhost", "3306", "root", "admin", "ecom_db", "D:1"⟩ [] 0
        ConnResult.failed =
      runAll ⟨"localhost", "3306", "root", "admin", "ecom_db", "D:2"⟩ [] 0
        ConnResult.failed :=
  (destination_flag_ignored
    ⟨"localhost", "3306", "root", "admin", "ecom_db", "D:1"⟩
    ⟨"localhost", "3306", "root", "admin", "ecom_db", "D:2"⟩ [] 0
    ConnResult.failed rfl rfl rfl rfl rfl).1

/-- C10: the port value (flag `-p`, `--port`) is parsed but never put
into the `config`
dict passed to `connect_to_mysql`: the config holds exactly the keys
host, user, password and database, and is unchanged by the port flag
(main.py lines 19, 44-49). -/
theorem port_flag_absent_from_config :
    (∀ a : Args, (config a).map Prod.fst =
      ["host", "user", "password", "database"]) ∧
    (∀ a1 a2 : Args, a1.host = a2.host → a1.username = a2.username →
      a1.password = a2.password → a1.db_name = a2.db_name →
      config a1 = config a2) ∧
    (∀ a : Args, ∀ kv ∈ config a, kv.1 ≠ "port") := by
  refine ⟨fun a => rfl, ?_, ?_⟩
  · intro a1 a2 hh hu hw hdb
    simp [config, hh, hu, hw, hdb]
  · intro a kv hkv
    simp only [config, List.mem_cons, List.not_mem_nil, or_false] at hkv
    rcases hkv with rfl | rfl | rfl | rfl <;> simp

/-- C10 witness: changing only the port leaves the config unchanged. -/
theorem port_flag_absent_from_config_witness :
    config ⟨"localhost", "3306", "root", "admin", "ecom_db", "D"⟩ =
      config ⟨"localhost", "9999", "root", "admin", "ecom_db", "D"⟩ :=
  port_flag_absent_from_config.2.1
    ⟨"localhost", "3306", "root", "admin", "ecom_db", "D"⟩
    ⟨"localhost", "9999", "root", "admin", "ecom_db", "D"⟩
    rfl rfl rfl rfl

end DBBackup
